import Mathlib

/-!
Shallow embedding of the OpenMindsBackend core: the test-submission scoring
engine (`app/services/result_service.py`), the answer normalizer inlined in
`submit_test_and_calculate_score`, the token codec (`app/utils/jwt_utils.py`)
and the role-gated access checks scattered over `app/api/routes/*.py`.

Python dynamic values that can appear in a submission payload (the pydantic
schema `TestSubmission` types `user_answers` as `Dict[str, Any]`, so the
values, and anything nested under the wrapper key, are arbitrary JSON values)
are modelled by the inductive `PyVal`.  Python `float` scores are modelled by
`ℚ`: the claims under study only involve sums of per-question weights, and the
rational numbers are the standard exact abstraction of that arithmetic.
-/

namespace OpenMinds

/-- A JSON-shaped Python value, as delivered by pydantic for an `Any` field. -/
inductive PyVal where
  | null : PyVal
  | bool : Bool → PyVal
  | int : Int → PyVal
  | str : String → PyVal
  | list : List PyVal → PyVal
  | dict : List (String × PyVal) → PyVal

/-- First-match lookup in a Python dict (dict keys are unique, so first match
is the match). Models `d[k]` / `d.get(k)` on a dict with string keys. -/
def pyLookup : List (String × PyVal) → String → Option PyVal
  | [], _ => none
  | p :: tail, k => if p.1 == k then some p.2 else pyLookup tail k

/-- Python `k in d` for a dict: key membership. -/
def pyHasKey (m : List (String × PyVal)) (k : String) : Bool :=
  m.any (fun p => p.1 == k)

/-- Python `needle in hay` for strings: contiguous-substring containment. -/
def strContains (hay needle : String) : Bool :=
  decide (needle.toList <:+: hay.toList)

/-- Python `k in c` where `k` is a string and `c` an arbitrary value:
dicts test key membership, strings test substring containment, lists test
elementwise `==` (a string key only ever equals a string element); `in`
applied to `None`, a bool or an int raises `TypeError`
(modelled as `Except.error`). -/
def pyContains (c : PyVal) (k : String) : Except Unit Bool :=
  match c with
  | .dict m => .ok (pyHasKey m k)
  | .str s => .ok (strContains s k)
  | .list l => .ok (l.any (fun v => match v with | .str s => s == k | _ => false))
  | _ => .error ()

/-- Python `c[k]` where `k` is a string: only dicts support string subscripts
(`KeyError` on a missing key); strings and lists demand integer indices and
everything else is not subscriptable, all raising (modelled as error). -/
def pyGetItem (c : PyVal) (k : String) : Except Unit PyVal :=
  match c with
  | .dict m =>
    match pyLookup m k with
    | some v => .ok v
    | none => .error ()
  | _ => .error ()

/-- Python `user_answer == question.correct_option_index` where the right side
is an `int` column that may be `NULL` (`None`).  `None == None` is `True`;
Python's `bool` is an `int` subtype so `True == 1` and `False == 0`; ints
compare numerically; strings, lists and dicts never equal an int or `None`. -/
def pyEqIdx (v : PyVal) (idx : Option Int) : Bool :=
  match v, idx with
  | .null, none => true
  | .bool b, some i => (if b then (1 : Int) else 0) == i
  | .int n, some i => n == i
  | _, _ => false

/-- A row of the `questions` table as the scoring path reads it
(`app/db/models.py`).  `options` holds the authored option texts;
`correct_option_index` is the (possibly `NULL`) answer-key column;
`max_score` is the question's weight. -/
structure Question where
  id : Int
  question_text : String
  max_score : ℚ
  options : List String
  correct_option_index : Option Int
  test_paper_id : Int
  deriving DecidableEq

/-- A row of the `test_papers` table (only the id matters to scoring). -/
structure TestPaper where
  id : Int
  name : String
  deriving DecidableEq

/-- A row of the `results` table as created by the scoring engine. -/
structure ResultRow where
  user_id : Int
  test_paper_id : Int
  final_score : ℚ
  user_answers : PyVal

/-- The slice of database state the submission flow touches. -/
structure Db where
  test_papers : List TestPaper
  questions : List Question
  results : List ResultRow

/-- `db.query(TestPaper).filter(TestPaper.id == test_paper_id).first()` is
some row iff a test paper with that id exists. -/
def tpExists (db : Db) (test_paper_id : Int) : Bool :=
  db.test_papers.any (fun t => t.id == test_paper_id)

/-- `db.query(Question).filter(Question.test_paper_id == test_paper_id).all()`. -/
def questionsOf (db : Db) (test_paper_id : Int) : List Question :=
  db.questions.filter (fun q => q.test_paper_id == test_paper_id)

/-- The value the scorer's `if question.options:` guard actually tests.
`create_new_question` / `update_question` store `json.dumps([...{"text": t}...])`
into a JSON column, so the scoring path reads a JSON-encoded *string*; its
Python truthiness is non-emptiness of that string.  Braces are written with
escapes. -/
def optionsStored (options : List String) : String :=
  "[" ++ String.intercalate ", " (options.map (fun t => "\x7b\"text\": \"" ++ t ++ "\"\x7d")) ++ "]"

/-- `if question.options:` in the scoring loop. -/
def optionsTruthy (q : Question) : Bool :=
  optionsStored q.options ≠ ""

/-- The answer-normalization step inlined at the top of
`submit_test_and_calculate_score` (result_service.py lines 168-178):
`answer_data` starts as `{}`; if the payload is a dict containing the wrapper
key `"user_answers"` the nested value (whatever it is) becomes the answer
data, otherwise a dict payload is the answer data in its entirety; a non-dict
payload leaves the initial empty dict. -/
def normalize_user_answers (user_answers : PyVal) : PyVal :=
  match user_answers with
  | .dict m =>
    match pyLookup m "user_answers" with
    | some v => v
    | none => .dict m
  | _ => .dict []

/-- The per-question scoring loop (result_service.py lines 185-235), with the
Python exceptions it can raise (`TypeError` from `question_id not in
answer_data` on a non-container, `TypeError` from subscripting a string or
list with a string key) made explicit in `Except`.  `str(question.id)` is
`toString q.id`. -/
def scoreLoop (answer_data : PyVal) : List Question → ℚ → Except Unit ℚ
  | [], total => .ok total
  | q :: rest, total =>
    match pyContains answer_data (toString q.id) with
    | .error e => .error e
    | .ok false => scoreLoop answer_data rest total
    | .ok true =>
      match pyGetItem answer_data (toString q.id) with
      | .error e => .error e
      | .ok v =>
        if optionsTruthy q then
          if pyEqIdx v q.correct_option_index then
            scoreLoop answer_data rest (total + q.max_score)
          else
            scoreLoop answer_data rest total
        else
          scoreLoop answer_data rest total

/-- `submit_test_and_calculate_score(db, user_id, test_paper_id, user_answers)`
(result_service.py lines 137-269).  Returns the created `Result` (or `None`)
together with the database state after the call: missing test paper and empty
question set return `None` and leave the database unchanged; an exception in
the scoring loop is caught by the enclosing `except`, the transaction is
rolled back, and `None` is returned; otherwise one result row holding the raw
total and the normalized answer snapshot is inserted. -/
def submit_test_and_calculate_score (db : Db) (user_id test_paper_id : Int)
    (user_answers : PyVal) : Option ResultRow × Db :=
  if tpExists db test_paper_id = false then
    (none, db)
  else
    let questions := questionsOf db test_paper_id
    if questions.isEmpty then
      (none, db)
    else
      let answer_data := normalize_user_answers user_answers
      match scoreLoop answer_data questions 0 with
      | .error _ => (none, db)
      | .ok total =>
        let row : ResultRow :=
          { user_id := user_id, test_paper_id := test_paper_id,
            final_score := total, user_answers := answer_data }
        (some row, { db with results := db.results ++ [row] })

/-- What one question adds to the total when the answer data is a dict `m`:
`0` if its id is absent, else `max_score` exactly when the stored options
value is truthy and the submitted value compares `==` to the answer key. -/
def contribution (m : List (String × PyVal)) (q : Question) : ℚ :=
  match pyLookup m (toString q.id) with
  | none => 0
  | some v =>
    if optionsTruthy q then
      if pyEqIdx v q.correct_option_index then q.max_score else 0
    else 0

/-- `max_possible_score = sum(q.max_score for q in questions)`. -/
def maxPossibleScore (db : Db) (test_paper_id : Int) : ℚ :=
  ((questionsOf db test_paper_id).map (fun q => q.max_score)).sum

/-!
Token codec (`app/utils/jwt_utils.py`).  JWT claim values carried by this
backend are strings (`sub`, `email`, `role`) and the integer `exp` timestamp;
`ClaimVal` covers both.  The `python-jose` HMAC signature is modelled as an
ideal MAC: signing a payload with a key yields the pair `(key, payload)`, and
verification succeeds exactly when the presented signature equals the MAC of
the presented payload under the verifier's key.  Clock reads
(`datetime.utcnow()`) are passed explicitly as an integer timestamp.
-/

/-- A JWT claim value: a string claim or an integer (timestamp) claim. -/
inductive ClaimVal where
  | s : String → ClaimVal
  | i : Int → ClaimVal
  deriving DecidableEq

/-- A claims dict, in insertion order (Python dicts preserve it). -/
abbrev Claims := List (String × ClaimVal)

/-- Python `d[k] = v` / `d.update({k: v})` on a dict: overwrite the entry in
place when the key is present (dict keys are unique, so the first occurrence
is the occurrence), append otherwise. -/
def claimsUpdate : Claims → String → ClaimVal → Claims
  | [], k, v => [(k, v)]
  | p :: tail, k, v => if p.1 == k then (k, v) :: tail else p :: claimsUpdate tail k v

/-- First-match lookup in a claims dict. -/
def claimsLookup : Claims → String → Option ClaimVal
  | [], _ => none
  | p :: tail, k => if p.1 == k then some p.2 else claimsLookup tail k

/-- The process-wide signing secret (`jwt_utils.py` line 10, the shipped
default for `JWT_SECRET_KEY`; the claims under study do not depend on its
value, only on its being a fixed process-wide key). -/
def SECRET_KEY : String := "your-secret-key-placeholder-change-in-production"

/-- `ACCESS_TOKEN_EXPIRE_MINUTES` default, as seconds. -/
def DEFAULT_EXPIRE_SECONDS : Int := 30 * 60

/-- A structurally well-formed JWT: a payload plus a signature field. -/
structure SignedToken where
  payload : Claims
  sig : String × Claims
  deriving DecidableEq

/-- `jwt.encode(payload, key)`: sign the payload with the key (ideal MAC). -/
def jwtEncode (payload : Claims) (key : String) : SignedToken :=
  ⟨payload, (key, payload)⟩

/-- A presented token string: either it parses into a structurally
well-formed JWT or it is malformed (wrong number of segments, bad base64,
and so on). -/
inductive TokenStr where
  | tok : SignedToken → TokenStr
  | malformed : String → TokenStr
  deriving DecidableEq

/-- The exceptions relevant to `verify_token`: `jose` raises `JWTError` (or a
subclass: `ExpiredSignatureError`, `JWTClaimsError`) for every token-level
failure; `otherExc` stands for any exception outside that hierarchy. -/
inductive PyExc where
  | jwtError : PyExc
  | otherExc : PyExc
  deriving DecidableEq

/-- `jwt.decode(token, key, algorithms=[ALGORITHM])`: raises `JWTError` on a
malformed encoding, a signature that is not the MAC of the payload under
`key`, a non-numeric `exp` claim, or an expiry in the past; otherwise returns
the embedded payload (a payload with no `exp` claim is not expiry-checked). -/
def jwtDecode (t : TokenStr) (key : String) (now : Int) : Except PyExc Claims :=
  match t with
  | .malformed _ => .error .jwtError
  | .tok t =>
    if t.sig ≠ (key, t.payload) then .error .jwtError
    else
      match claimsLookup t.payload "exp" with
      | some (.i e) => if e < now then .error .jwtError else .ok t.payload
      | some _ => .error .jwtError
      | none => .ok t.payload

/-- `if expires_delta:` — a `timedelta` is falsy exactly when it is zero, and
`None` is falsy, both falling back to the configured default. -/
def effectiveDelta (expires_delta : Option Int) : Int :=
  match expires_delta with
  | some d => if d ≠ 0 then d else DEFAULT_EXPIRE_SECONDS
  | none => DEFAULT_EXPIRE_SECONDS

/-- `create_access_token(data, expires_delta)` (jwt_utils.py lines 14-35):
copy the claims, add `exp = now + delta`, sign with the process secret. -/
def create_access_token (data : Claims) (expires_delta : Option Int)
    (now : Int) : TokenStr :=
  let expire := now + effectiveDelta expires_delta
  let to_encode := claimsUpdate data "exp" (.i expire)
  .tok (jwtEncode to_encode SECRET_KEY)

/-- `verify_token(token)` (jwt_utils.py lines 37-51) with its exception flow
explicit: `try: return jwt.decode(...)` and `except jwt.JWTError: return None`;
an exception outside `JWTError` would escape to the caller
(`Except.error`). -/
def verify_tokenE (token : TokenStr) (now : Int) : Except PyExc (Option Claims) :=
  match jwtDecode token SECRET_KEY now with
  | .ok payload => .ok (some payload)
  | .error .jwtError => .ok none
  | .error e => .error e

/-- `verify_token` as its callers see it: payload or `None`. -/
def verify_token (token : TokenStr) (now : Int) : Option Claims :=
  match verify_tokenE token now with
  | .ok r => r
  | .error _ => none

/-!
Heap model for the aliasing behaviour of `create_access_token`: Python dicts
are mutable objects, so `data.copy()` versus `data.update(...)` is observable
by the caller.  A store is a list of dict cells addressed by index.
-/

/-- A heap of Python dict objects, addressed by allocation index. -/
abbrev DictStore := List Claims

/-- Dereference a dict cell. -/
def storeGet (st : DictStore) (r : Nat) : Claims :=
  st.getD r []

/-- Overwrite a dict cell in place (what a mutating method does). -/
def storeSet (st : DictStore) (r : Nat) (d : Claims) : DictStore :=
  st.set r d

/-- `d.copy()`: allocate a fresh cell holding the same entries. -/
def dictCopyAlloc (st : DictStore) (r : Nat) : DictStore × Nat :=
  (st ++ [storeGet st r], st.length)

/-- `create_access_token` against the heap: `to_encode = data.copy()` then
`to_encode.update({"exp": expire})` mutates only the fresh cell; the final
heap is returned alongside the token. -/
def create_access_token_heap (st : DictStore) (dataRef : Nat)
    (expires_delta : Option Int) (now : Int) : DictStore × TokenStr :=
  let alloc := dictCopyAlloc st dataRef
  let expire := now + effectiveDelta expires_delta
  let st2 := storeSet alloc.1 alloc.2
    (claimsUpdate (storeGet alloc.1 alloc.2) "exp" (.i expire))
  (st2, .tok (jwtEncode (storeGet st2 alloc.2) SECRET_KEY))

/-!
Access policy.  The decision logic lives inline in the route handlers:
`results.py` line 35 (`submit_test`), line 108 (`get_result`), `auth.py`
lines 80, 214, 251 (`get_current_admin` and the user-profile routes), and the
`Depends(get_current_admin)` guards on the admin-only routes.  `canAccess`
collects those checks per operation; `selfPermitted` is the spec's
self-permitted set, written from the spec's words for comparison.
-/

/-- `UserRole` (`app/db/models.py`): the spec's STANDARD is `USER`. -/
inductive Role where
  | user : Role
  | admin : Role
  deriving DecidableEq

/-- The owner-scoped and admin-gated operations implemented by the routes. -/
inductive AccessOp where
  | submitTest : AccessOp
  | readResult : AccessOp
  | readUserProfile : AccessOp
  | updateUserProfile : AccessOp
  | listUserResults : AccessOp
  | listTestPaperResults : AccessOp
  | deleteResult : AccessOp
  | adminCreateUser : AccessOp
  deriving DecidableEq

/-- Modelled from the spec: the self-permitted operation set named in §4.3 —
read own profile/results, update own profile, submit own test attempt. -/
def selfPermitted : AccessOp → Bool
  | .submitTest => true
  | .readResult => true
  | .readUserProfile => true
  | .updateUserProfile => true
  | _ => false

/-- The route-level access decision, operation by operation, as the handlers
write it: `submit_test` denies unless `submission.user_id == current_user.id`
or the role is admin; `get_result` denies unless `result.user_id ==
current_user.id` or admin; the profile routes deny unless admin or
`current_user.id == user_id`; the remaining operations sit behind
`Depends(get_current_admin)`. -/
def canAccess (role : Role) (requesterId resourceOwnerId : Int)
    (op : AccessOp) : Bool :=
  match op with
  | .submitTest => resourceOwnerId == requesterId || role == .admin
  | .readResult => resourceOwnerId == requesterId || role == .admin
  | .readUserProfile => role == .admin || requesterId == resourceOwnerId
  | .updateUserProfile => role == .admin || requesterId == resourceOwnerId
  | .listUserResults => role == .admin
  | .listTestPaperResults => role == .admin
  | .deleteResult => role == .admin
  | .adminCreateUser => role == .admin

/-!
Concrete fixtures used by the counterexample and witness theorems below.
-/

/-- A test paper (id 1) with one two-option question, answer key index 1,
weight 2. -/
def dbBool : Db :=
  { test_papers := [⟨1, "tp"⟩],
    questions := [{ id := 1, question_text := "q", max_score := 2,
                    options := ["a", "b"], correct_option_index := some 1,
                    test_paper_id := 1 }],
    results := [] }

/-- The single question of `dbBool`. -/
def qBool : Question :=
  { id := 1, question_text := "q", max_score := 2, options := ["a", "b"],
    correct_option_index := some 1, test_paper_id := 1 }

/-- A test paper (id 1) with one question whose answer key is `NULL`. -/
def dbNullIdx : Db :=
  { test_papers := [⟨1, "tp"⟩],
    questions := [{ id := 1, question_text := "q", max_score := 3,
                    options := ["a", "b"], correct_option_index := none,
                    test_paper_id := 1 }],
    results := [] }

/-- The single (null-keyed) question of `dbNullIdx`. -/
def qNullIdx : Question :=
  { id := 1, question_text := "q", max_score := 3, options := ["a", "b"],
    correct_option_index := none, test_paper_id := 1 }

/-- A test paper (id 1) with one question carrying a negative weight, as the
creation path accepts (`QuestionCreate.max_score` has no positivity bound). -/
def dbNeg : Db :=
  { test_papers := [⟨1, "tp"⟩],
    questions := [{ id := 1, question_text := "q", max_score := -1,
                    options := ["a"], correct_option_index := some 0,
                    test_paper_id := 1 }],
    results := [] }

/-- An answer mapping that itself uses the wrapper key as a question key. -/
def mWrapped : List (String × PyVal) := [("user_answers", .int 0)]

/-- A well-behaved answer mapping answering question 1 with integer 1. -/
def mInt : List (String × PyVal) := [("1", PyVal.int 1)]

/-- The result row created by submitting `mInt` against `dbBool`. -/
def rowInt : ResultRow := ⟨7, 1, 0 + 2, .dict mInt⟩

/-- The database state after that submission. -/
def dbBoolAfterInt : Db := { dbBool with results := dbBool.results ++ [rowInt] }

/-!
Supporting lemmas (shared by the claim theorems).
-/

/-- The JSON text stored for an options list is never the empty string. -/
theorem optionsStored_ne_empty (opts : List String) : optionsStored opts ≠ "" := by
  intro h
  have hlen := congrArg String.length h
  simp [optionsStored, String.length_append] at hlen
  exact absurd hlen.1.1 (by decide)

/-- The scorer's `if question.options:` guard always passes: the column is
non-nullable and holds a JSON-encoded string, which is never empty. -/
theorem optionsTruthy_true (q : Question) : optionsTruthy q = true := by
  simp [optionsTruthy]
  exact optionsStored_ne_empty q.options

/-- A key reported absent by `in` is absent for lookup. -/
theorem pyLookup_eq_none_of_hasKey_false {m : List (String × PyVal)} {k : String}
    (h : pyHasKey m k = false) : pyLookup m k = none := by
  induction m with
  | nil => rfl
  | cons p tail ih =>
    simp only [pyHasKey, List.any_cons, Bool.or_eq_false_iff] at h
    simp only [pyLookup, h.1, if_false]
    exact ih (by simp [pyHasKey, h.2])

/-- A key reported present by `in` has a lookup value. -/
theorem pyLookup_isSome_of_hasKey {m : List (String × PyVal)} {k : String}
    (h : pyHasKey m k = true) : ∃ v, pyLookup m k = some v := by
  induction m with
  | nil => simp [pyHasKey] at h
  | cons p tail ih =>
    by_cases hp : p.1 == k
    · exact ⟨p.2, by simp [pyLookup, hp]⟩
    · simp only [pyHasKey, List.any_cons, hp, Bool.false_or] at h
      obtain ⟨v, hv⟩ := ih h
      exact ⟨v, by simp [pyLookup, hp, hv]⟩

/-- When the answer data is a dict, the scoring loop never raises and the
total it returns is the accumulator plus the per-question contributions. -/
theorem scoreLoop_dict (m : List (String × PyVal)) (qs : List Question) :
    ∀ acc : ℚ, scoreLoop (.dict m) qs acc =
      .ok (acc + (qs.map (contribution m)).sum) := by
  induction qs with
  | nil => intro acc; simp [scoreLoop]
  | cons q rest ih =>
    intro acc
    rw [scoreLoop]
    cases hk : pyHasKey m (toString q.id) with
    | false =>
      have hnone := pyLookup_eq_none_of_hasKey_false hk
      simp [pyContains, hk, ih, contribution, hnone]
    | true =>
      obtain ⟨v, hv⟩ := pyLookup_isSome_of_hasKey hk
      cases heq : pyEqIdx v q.correct_option_index with
      | false =>
        simp [pyContains, hk, pyGetItem, hv, optionsTruthy_true, heq, ih,
          contribution]
      | true =>
        simp [pyContains, hk, pyGetItem, hv, optionsTruthy_true, heq, ih,
          contribution, add_assoc]

/-- Whatever shape the answer data has, a total the loop returns moves the
accumulator up by at least zero and at most the sum of the weights. -/
theorem scoreLoop_bounds {ad : PyVal} {qs : List Question}
    (hpos : ∀ q ∈ qs, 0 ≤ q.max_score) :
    ∀ {acc t : ℚ}, scoreLoop ad qs acc = .ok t →
      acc ≤ t ∧ t ≤ acc + (qs.map (fun q => q.max_score)).sum := by
  induction qs with
  | nil =>
    intro acc t h
    simp [scoreLoop] at h
    simp [h]
  | cons q rest ih =>
    intro acc t h
    have hq : (0 : ℚ) ≤ q.max_score := hpos q (by simp)
    have hrest : ∀ p ∈ rest, (0 : ℚ) ≤ p.max_score :=
      fun p hp => hpos p (by simp [hp])
    rw [scoreLoop] at h
    rcases hc : pyContains ad (toString q.id) with e | b
    · rw [hc] at h; cases h
    · simp only [hc] at h
      cases b with
      | false =>
        obtain ⟨h1, h2⟩ := ih hrest h
        refine ⟨h1, h2.trans ?_⟩
        simp only [List.map_cons, List.sum_cons]
        linarith
      | true =>
        rcases hg : pyGetItem ad (toString q.id) with e | v
        · rw [hg] at h; cases h
        · simp only [hg] at h
          by_cases ht : optionsTruthy q = true
          · rw [if_pos ht] at h
            by_cases he : pyEqIdx v q.correct_option_index = true
            · rw [if_pos he] at h
              obtain ⟨h1, h2⟩ := ih hrest h
              constructor
              · linarith
              · simp only [List.map_cons, List.sum_cons]
                linarith
            · rw [if_neg he] at h
              obtain ⟨h1, h2⟩ := ih hrest h
              refine ⟨h1, h2.trans ?_⟩
              simp only [List.map_cons, List.sum_cons]
              linarith
          · rw [if_neg ht] at h
            obtain ⟨h1, h2⟩ := ih hrest h
            refine ⟨h1, h2.trans ?_⟩
            simp only [List.map_cons, List.sum_cons]
            linarith

/-- Anatomy of a successful submission: the test paper existed, the question
set was non-empty, the scoring loop returned the persisted total, and exactly
one result row (the returned one, holding the normalized snapshot) was
appended. -/
theorem submit_some_inv {db : Db} {uid tpid : Int} {ua : PyVal} {r : ResultRow}
    {db' : Db}
    (h : submit_test_and_calculate_score db uid tpid ua = (some r, db')) :
    tpExists db tpid = true ∧ (questionsOf db tpid).isEmpty = false ∧
    scoreLoop (normalize_user_answers ua) (questionsOf db tpid) 0 =
      .ok r.final_score ∧
    r.user_id = uid ∧ r.test_paper_id = tpid ∧
    r.user_answers = normalize_user_answers ua ∧
    db' = { db with results := db.results ++ [r] } := by
  simp only [submit_test_and_calculate_score] at h
  split at h
  · simp at h
  next htp =>
    split at h
    next hemp => simp at h
    next hemp =>
      split at h
      next e heq => simp at h
      next total heq =>
        rw [Prod.mk.injEq] at h
        obtain ⟨hr, hdb⟩ := h
        injection hr with hr
        subst hr
        subst hdb
        refine ⟨by simpa using htp, by simpa using hemp, heq, rfl, rfl, rfl, rfl⟩

/-- A submission against a missing test paper changes nothing and returns
`None`. -/
theorem submit_no_tp {db : Db} {uid tpid : Int} {ua : PyVal}
    (h : tpExists db tpid = false) :
    submit_test_and_calculate_score db uid tpid ua = (none, db) := by
  simp [submit_test_and_calculate_score, h]

/-- A submission against a test paper with no questions changes nothing and
returns `None`. -/
theorem submit_no_questions {db : Db} {uid tpid : Int} {ua : PyVal}
    (h : questionsOf db tpid = []) :
    submit_test_and_calculate_score db uid tpid ua = (none, db) := by
  simp [submit_test_and_calculate_score, h]

/-- Updating a claims dict makes the updated key map to the new value. -/
theorem claimsLookup_update_self (d : Claims) (k : String) (v : ClaimVal) :
    claimsLookup (claimsUpdate d k v) k = some v := by
  induction d with
  | nil => simp [claimsUpdate, claimsLookup]
  | cons p tail ih =>
    by_cases hp : p.1 == k
    · simp [claimsUpdate, hp, claimsLookup]
    · simp [claimsUpdate, hp, claimsLookup, ih]

/-- Updating a claims dict leaves every other key's lookup unchanged. -/
theorem claimsLookup_update_other (d : Claims) (k : String) (v : ClaimVal)
    {k' : String} (h : k' ≠ k) :
    claimsLookup (claimsUpdate d k v) k' = claimsLookup d k' := by
  have hkk : (k == k') = false := beq_eq_false_iff_ne.mpr (fun hh => h hh.symm)
  induction d with
  | nil => simp [claimsUpdate, claimsLookup, hkk]
  | cons p tail ih =>
    by_cases hp : p.1 == k
    · have hk1 : p.1 = k := by simpa using hp
      have hp' : (p.1 == k') = false := by rw [hk1]; exact hkk
      simp [claimsUpdate, hp, claimsLookup, hkk, hp']
    · simp [claimsUpdate, hp, claimsLookup, ih]

/-- `jose` raises only `JWTError` (or a subclass) out of `jwt.decode`. -/
theorem jwtDecode_error_jwt {t : TokenStr} {key : String} {now : Int}
    {e : PyExc} (h : jwtDecode t key now = .error e) : e = .jwtError := by
  cases t with
  | malformed s => simp [jwtDecode] at h; exact h.symm
  | tok t =>
    simp only [jwtDecode] at h
    split at h
    · exact (Except.error.inj h).symm
    · split at h
      · split at h
        · exact (Except.error.inj h).symm
        · cases h
      · exact (Except.error.inj h).symm
      · cases h

/-- A non-empty list is not `isEmpty`. -/
theorem isEmpty_false_of_ne_nil {α : Type} {l : List α} (h : l ≠ []) :
    l.isEmpty = false := by
  cases l with
  | nil => exact absurd rfl h
  | cons a t => rfl

/-- The question list of `dbBool` for test paper 1 is exactly `[qBool]`. -/
theorem questionsOf_dbBool : questionsOf dbBool 1 = [qBool] := rfl

/-!
Claim theorems.
-/

/-- C3: for every (resourceOwnerId, operation) pair an ADMIN requester is
allowed, and a STANDARD (`USER`) requester is allowed exactly when the
requester id equals the resource owner id and the operation is in the
self-permitted set (read own profile or result, update own profile, submit
own test attempt). -/
theorem claim3_access_policy :
    ∀ (requesterId resourceOwnerId : Int) (op : AccessOp),
      canAccess Role.admin requesterId resourceOwnerId op = true ∧
      (canAccess Role.user requesterId resourceOwnerId op = true ↔
        (requesterId = resourceOwnerId ∧ selfPermitted op = true)) := by
  intro rid oid op
  constructor
  · cases op <;> simp [canAccess]
  · cases op <;> simp [canAccess, selfPermitted] <;> exact eq_comm

/-- C10: `verify_token` is total — on every presented token (well-formed or
garbage) and at every clock value, its internal `jwt.decode` call produces
either a payload or a `JWTError`, the `except` arm converts the latter to
`None`, and no exception escapes to the caller. -/
theorem claim10_verify_total :
    ∀ (token : TokenStr) (now : Int), ∃ r : Option Claims,
      verify_tokenE token now = .ok r ∧ verify_token token now = r := by
  intro t now
  rcases hd : jwtDecode t SECRET_KEY now with e | p
  · have he := jwtDecode_error_jwt hd
    subst he
    exact ⟨none, by simp [verify_tokenE, hd], by simp [verify_token, verify_tokenE, hd]⟩
  · exact ⟨some p, by simp [verify_tokenE, hd], by simp [verify_token, verify_tokenE, hd]⟩

/-- C6: a submission against a missing test paper, or against a test paper
whose question set is empty, returns the NotFound-class outcome (`None`) and
creates no result row; a submission against a non-empty question set in which
every question is unanswered creates a valid result with total 0. -/
theorem claim6_empty_paper_notfound (db : Db) (uid tpid : Int) (ua : PyVal) :
    (tpExists db tpid = false →
      submit_test_and_calculate_score db uid tpid ua = (none, db)) ∧
    (questionsOf db tpid = [] →
      submit_test_and_calculate_score db uid tpid ua = (none, db)) ∧
    (∀ m, normalize_user_answers ua = .dict m →
      tpExists db tpid = true → questionsOf db tpid ≠ [] →
      (∀ q ∈ questionsOf db tpid, pyLookup m (toString q.id) = none) →
      ∃ r, (submit_test_and_calculate_score db uid tpid ua).1 = some r ∧
        r.final_score = 0 ∧
        (submit_test_and_calculate_score db uid tpid ua).2 =
          { db with results := db.results ++ [r] }) := by
  refine ⟨submit_no_tp, submit_no_questions, ?_⟩
  intro m hm htp hqs hun
  have hemp : (questionsOf db tpid).isEmpty = false := isEmpty_false_of_ne_nil hqs
  have hsum : ((questionsOf db tpid).map (contribution m)).sum = 0 := by
    apply List.sum_eq_zero
    intro x hx
    obtain ⟨q, hq, rfl⟩ := List.mem_map.mp hx
    simp [contribution, hun q hq]
  have hloop := scoreLoop_dict m (questionsOf db tpid) 0
  rw [hsum] at hloop
  have hs : submit_test_and_calculate_score db uid tpid ua =
      (some ⟨uid, tpid, 0, .dict m⟩,
       { db with results := db.results ++ [⟨uid, tpid, 0, .dict m⟩] }) := by
    simp [submit_test_and_calculate_score, htp, hemp, hm, hloop]
  exact ⟨⟨uid, tpid, 0, .dict m⟩, by rw [hs], rfl, by rw [hs]⟩

/-- C6 witness: against `dbBool`, submitting to the absent test paper 99
returns `None` and leaves the database unchanged, while submitting an answer
mapping that answers no question to test paper 1 creates a zero-score
result. -/
theorem claim6_empty_paper_notfound_witness :
    submit_test_and_calculate_score dbBool 1 99 (.dict []) = (none, dbBool) ∧
    ∃ r, (submit_test_and_calculate_score dbBool 1 1 (.dict [("9", PyVal.int 0)])).1 =
      some r ∧ r.final_score = 0 := by
  constructor
  · exact (claim6_empty_paper_notfound dbBool 1 99 (.dict [])).1 rfl
  · have T := (claim6_empty_paper_notfound dbBool 1 1 (.dict [("9", PyVal.int 0)])).2.2
      [("9", PyVal.int 0)] rfl rfl
      (by rw [questionsOf_dbBool]; exact List.cons_ne_nil _ _)
      (by
        intro q hq
        rw [questionsOf_dbBool] at hq
        obtain rfl := List.mem_singleton.mp hq
        rfl)
    obtain ⟨r, h1, h2, _⟩ := T
    exact ⟨r, h1, h2⟩

/-- C5 counterexample: with the test paper present and its question set
non-empty, the malformed-but-well-typed payload `{"user_answers": 5}` makes
`question_id not in answer_data` raise `TypeError`; the enclosing `except`
catches it and the call returns `None` — no Result is produced, refuting
"grading always produces a Result ... for any value, dict or not, nested
under the wrapper key". -/
theorem claim5_no_raise_counterexample :
    submit_test_and_calculate_score dbBool 7 1
      (.dict [("user_answers", PyVal.int 5)]) = (none, dbBool) ∧
    tpExists dbBool 1 = true ∧ (questionsOf dbBool 1).isEmpty = false :=
  ⟨rfl, rfl, rfl⟩

/-- C5 amended: the submission path never propagates an exception to its
caller — an internal scoring error is caught, the transaction rolled back,
and the call returns the no-Result outcome with the database unchanged.
Whenever the normalized answer data is a dict (every payload whose wrapper
value is a dict and every payload without the wrapper key), a resolved test
paper with a non-empty question set always yields a Result.  A null, boolean
or integer nested under the wrapper key always makes the membership test
raise internally, so those payloads yield the no-Result outcome instead;
string and list values support Python `in` and are not covered by either
universal. -/
theorem claim5_no_raise_amended (db : Db) (uid tpid : Int) (ua : PyVal) :
    (∀ m, normalize_user_answers ua = .dict m →
      tpExists db tpid = true → questionsOf db tpid ≠ [] →
      ∃ r db2, submit_test_and_calculate_score db uid tpid ua = (some r, db2)) ∧
    (scoreLoop (normalize_user_answers ua) (questionsOf db tpid) 0 =
        .error () →
      submit_test_and_calculate_score db uid tpid ua = (none, db)) ∧
    ((normalize_user_answers ua = .null ∨
      (∃ b, normalize_user_answers ua = .bool b) ∨
      (∃ n, normalize_user_answers ua = .int n)) →
      questionsOf db tpid ≠ [] →
      scoreLoop (normalize_user_answers ua) (questionsOf db tpid) 0 =
        .error ()) := by
  refine ⟨?_, ?_, ?_⟩
  · intro m hm htp hqs
    have hemp : (questionsOf db tpid).isEmpty = false := isEmpty_false_of_ne_nil hqs
    have hloop := scoreLoop_dict m (questionsOf db tpid) 0
    refine ⟨⟨uid, tpid, ((questionsOf db tpid).map (contribution m)).sum, .dict m⟩,
      { db with results := db.results ++
          [⟨uid, tpid, ((questionsOf db tpid).map (contribution m)).sum, .dict m⟩] }, ?_⟩
    simp [submit_test_and_calculate_score, htp, hemp, hm, hloop]
  · intro herr
    by_cases htp : tpExists db tpid = false
    · exact submit_no_tp htp
    · have htp2 : tpExists db tpid = true := by simpa using htp
      by_cases hq : questionsOf db tpid = []
      · exact submit_no_questions hq
      · have hemp : (questionsOf db tpid).isEmpty = false := isEmpty_false_of_ne_nil hq
        simp [submit_test_and_calculate_score, htp2, hemp, herr]
  · intro hshape hq
    cases hqs : questionsOf db tpid with
    | nil => exact absurd hqs hq
    | cons q rest =>
      rcases hshape with h | ⟨b, h⟩ | ⟨n, h⟩ <;> rw [h] <;> rfl

/-- C5 witness: a dict-shaped payload against `dbBool` produces a result,
and the nested-integer payload is caught and produces none. -/
theorem claim5_no_raise_amended_witness :
    (∃ r db2, submit_test_and_calculate_score dbBool 5 1
      (.dict [("1", PyVal.int 0)]) = (some r, db2)) ∧
    submit_test_and_calculate_score dbBool 7 1
      (.dict [("user_answers", PyVal.int 5)]) = (none, dbBool) := by
  constructor
  · exact (claim5_no_raise_amended dbBool 5 1 (.dict [("1", PyVal.int 0)])).1
      [("1", PyVal.int 0)] rfl rfl
      (by rw [questionsOf_dbBool]; exact List.cons_ne_nil _ _)
  · exact (claim5_no_raise_amended dbBool 7 1
      (.dict [("user_answers", PyVal.int 5)])).2.1 rfl

/-- C7 counterexample: for the mapping `m = {"user_answers": 0}`, the payload
`{"user_answers": m}` normalizes to `m` itself, but normalizing `m` directly
follows the wrapper key inside it and yields `0` — the claimed equation fails
for mappings that use the wrapper key as a question key. -/
theorem claim7_normalizer_counterexample :
    normalize_user_answers (.dict [("user_answers", .dict mWrapped)]) =
      .dict mWrapped ∧
    normalize_user_answers (.dict mWrapped) = .int 0 ∧
    PyVal.dict mWrapped ≠ PyVal.int 0 :=
  ⟨rfl, rfl, fun h => PyVal.noConfusion h⟩

/-- C7 amended: for every answer mapping that does not itself contain the
wrapper key `"user_answers"`, normalizing the wrapped payload and normalizing
the bare mapping agree (values preserved as given, no coercion), and a
payload without the wrapper key is used in its entirety as the mapping. -/
theorem claim7_normalizer_amended (m : List (String × PyVal))
    (h : pyHasKey m "user_answers" = false) :
    normalize_user_answers (.dict [("user_answers", .dict m)]) =
      normalize_user_answers (.dict m) ∧
    normalize_user_answers (.dict m) = .dict m := by
  have hn := pyLookup_eq_none_of_hasKey_false h
  constructor
  · simp [normalize_user_answers, pyLookup, hn]
  · simp [normalize_user_answers, hn]

/-- C7 witness: the spec's own scenario, `{user_answers: {q1: 1}}` versus
`{q1: 1}`. -/
theorem claim7_normalizer_amended_witness :
    pyHasKey [("1", PyVal.int 1)] "user_answers" = false ∧
    normalize_user_answers (.dict [("user_answers", .dict [("1", PyVal.int 1)])]) =
      normalize_user_answers (.dict [("1", PyVal.int 1)]) :=
  ⟨rfl, (claim7_normalizer_amended [("1", PyVal.int 1)] rfl).1⟩

/-- C1 counterexample: question 1 of `dbBool` has the valid correct-option
index 1, the submitted value is the boolean `true` — a different value from
the integer 1, so under strict no-coercion equality it should contribute 0 —
yet the computed total is the full `maxScore` 2, because Python's `==`
identifies `True` with `1`. -/
theorem claim1_strict_equality_counterexample :
    (submit_test_and_calculate_score dbBool 7 1
        (.dict [("1", PyVal.bool true)])).1.map (fun r => r.final_score) =
      some (0 + 2) ∧
    (0 + 2 : ℚ) ≠ 0 ∧
    PyVal.bool true ≠ PyVal.int 1 ∧
    qBool.correct_option_index = some 1 :=
  ⟨rfl, by norm_num, fun h => PyVal.noConfusion h, rfl⟩

/-- C1 amended: the persisted total is the sum of per-question
contributions; a question with a valid correct-option index contributes
exactly `maxScore` when the submitted value is the integer equal to that
index, and exactly 0 when the question is unanswered or the submitted value
compares unequal under the code's Python `==` (which also identifies the
booleans true/false with indices 1/0 — the one departure from strict
no-coercion equality). -/
theorem claim1_contribution_python_eq (db : Db) (uid tpid : Int) (ua : PyVal)
    (r : ResultRow) (db2 : Db) (m : List (String × PyVal))
    (h : submit_test_and_calculate_score db uid tpid ua = (some r, db2))
    (hm : normalize_user_answers ua = .dict m) :
    r.final_score = ((questionsOf db tpid).map (contribution m)).sum ∧
    ∀ q ∈ questionsOf db tpid, ∀ i : Int, q.correct_option_index = some i →
      0 ≤ i → i.toNat < q.options.length →
      ((pyLookup m (toString q.id) = some (.int i) →
        contribution m q = q.max_score) ∧
       (∀ v, pyLookup m (toString q.id) = some v →
         pyEqIdx v (some i) = false → contribution m q = 0) ∧
       (pyLookup m (toString q.id) = none → contribution m q = 0)) := by
  obtain ⟨htp, hemp, hloop, _, _, _, _⟩ := submit_some_inv h
  rw [hm, scoreLoop_dict] at hloop
  have htot := Except.ok.inj hloop
  constructor
  · rw [← htot, zero_add]
  · intro q hq i hi hnn hlt
    refine ⟨fun hv => ?_, fun v hv hne => ?_, fun hv => ?_⟩
    · simp [contribution, hv, optionsTruthy_true, hi, pyEqIdx]
    · simp [contribution, hv, optionsTruthy_true, hi, hne]
    · simp [contribution, hv]

/-- C1 witness: submitting the integer answer 1 against `dbBool` — the total
is the contribution sum and question 1 contributes its full weight. -/
theorem claim1_contribution_python_eq_witness :
    rowInt.final_score = ((questionsOf dbBool 1).map (contribution mInt)).sum ∧
    contribution mInt qBool = qBool.max_score := by
  have T := claim1_contribution_python_eq dbBool 7 1 (.dict mInt) rowInt
    dbBoolAfterInt mInt rfl rfl
  refine ⟨T.1, ?_⟩
  have hq : qBool ∈ questionsOf dbBool 1 := by
    rw [questionsOf_dbBool]; exact List.mem_singleton_self _
  exact (T.2 qBool hq 1 rfl (by decide) (by decide)).1 rfl

/-- C4 counterexample: question 1 of `dbNullIdx` has a `NULL` correct-option
index; the claim says every submitted value (including a submitted null)
contributes 0, yet submitting `{"1": null}` scores the full weight 3 because
Python evaluates `None == None` to `True`. -/
theorem claim4_null_index_counterexample :
    (submit_test_and_calculate_score dbNullIdx 7 1
        (.dict [("1", PyVal.null)])).1.map (fun r => r.final_score) =
      some (0 + 3) ∧
    (0 + 3 : ℚ) ≠ 0 ∧
    qNullIdx.correct_option_index = none :=
  ⟨rfl, by norm_num, rfl⟩

/-- C4 amended: a question whose correct-option index is null contributes 0
for an absent answer and for every submitted value except a submitted null,
which Python's `None == None` counts as correct, contributing the full
`maxScore`; no submitted value makes the per-question comparison raise. -/
theorem claim4_null_index_amended (m : List (String × PyVal)) (q : Question)
    (hq : q.correct_option_index = none) :
    (pyLookup m (toString q.id) = none → contribution m q = 0) ∧
    (∀ v, pyLookup m (toString q.id) = some v → v ≠ .null →
      contribution m q = 0) ∧
    (pyLookup m (toString q.id) = some .null →
      contribution m q = q.max_score) := by
  refine ⟨fun hv => by simp [contribution, hv], fun v hv hne => ?_,
    fun hv => by simp [contribution, hv, optionsTruthy_true, hq, pyEqIdx]⟩
  have hfalse : pyEqIdx v q.correct_option_index = false := by
    rw [hq]
    cases v with
    | null => exact absurd rfl hne
    | bool b => rfl
    | int n => rfl
    | str s => rfl
    | list l => rfl
    | dict d => rfl
  simp [contribution, hv, optionsTruthy_true, hfalse]

/-- C4 witness: against the null-keyed question, a submitted null scores the
full weight and a submitted integer 0 scores nothing. -/
theorem claim4_null_index_amended_witness :
    contribution [("1", PyVal.null)] qNullIdx = qNullIdx.max_score ∧
    contribution [("1", PyVal.int 0)] qNullIdx = 0 :=
  ⟨(claim4_null_index_amended [("1", PyVal.null)] qNullIdx rfl).2.2 rfl,
   (claim4_null_index_amended [("1", PyVal.int 0)] qNullIdx rfl).2.1
     (PyVal.int 0) rfl (fun h => PyVal.noConfusion h)⟩

/-- C8 counterexample: the creation path accepts a negative `max_score`
(`QuestionCreate` has no positivity bound), and a correctly answered question
with weight −1 yields a persisted Result with total −1, violating
`0 <= total`. -/
theorem claim8_bounds_counterexample :
    (submit_test_and_calculate_score dbNeg 7 1
        (.dict [("1", PyVal.int 0)])).1.map (fun r => r.final_score) =
      some (0 + -1) ∧
    ¬ (0 ≤ (0 + -1 : ℚ)) :=
  ⟨rfl, by norm_num⟩

/-- C8 amended: provided every question of the paper has a nonnegative
`maxScore` (the data-model assumption the code itself never enforces), every
computed Result satisfies `0 ≤ total ≤ maxPossibleScore`, where
`maxPossibleScore` is the sum of the weights at grading time. -/
theorem claim8_bounds_amended (db : Db) (uid tpid : Int) (ua : PyVal)
    (r : ResultRow) (db2 : Db)
    (h : submit_test_and_calculate_score db uid tpid ua = (some r, db2))
    (hpos : ∀ q ∈ questionsOf db tpid, 0 ≤ q.max_score) :
    0 ≤ r.final_score ∧ r.final_score ≤ maxPossibleScore db tpid := by
  obtain ⟨_, _, hloop, _, _, _, _⟩ := submit_some_inv h
  obtain ⟨h1, h2⟩ := scoreLoop_bounds hpos hloop
  exact ⟨h1, by simpa [maxPossibleScore] using h2⟩

/-- C8 witness: the `dbBool` submission with answer 1 lands within
`[0, maxPossibleScore]`. -/
theorem claim8_bounds_amended_witness :
    0 ≤ rowInt.final_score ∧ rowInt.final_score ≤ maxPossibleScore dbBool 1 :=
  claim8_bounds_amended dbBool 7 1 (.dict mInt) rowInt dbBoolAfterInt rfl
    (by
      intro q hq
      rw [questionsOf_dbBool] at hq
      obtain rfl := List.mem_singleton.mp hq
      norm_num [qBool])

/-- C2 counterexample: `verify(issue(claims, ttl))` before expiry does not
return claims equal to the original dict — the expiry entry has been added.
With `claims = {}`, ttl 60 issued at time 0 and verified at time 10, the
round trip returns `{"exp": 60}`, not `{}`. -/
theorem claim2_roundtrip_counterexample :
    verify_token (create_access_token [] (some 60) 0) 10 =
      some [("exp", ClaimVal.i 60)] ∧
    some [("exp", ClaimVal.i 60)] ≠ some ([] : Claims) :=
  ⟨rfl, by simp⟩

/-- C2 amended: for positive ttl, verifying before expiry returns exactly the
original claims with the `exp` entry set to issue time plus ttl (so every key
other than `exp` is returned unchanged); verifying after expiry returns
Invalid (`None`), and so does any token whose signature field is not the MAC
of its payload under the process secret. -/
theorem claim2_roundtrip_amended (data : Claims) (ttl now : Int)
    (h : 0 < ttl) :
    (∀ now2 : Int, now2 ≤ now + ttl →
      verify_token (create_access_token data (some ttl) now) now2 =
        some (claimsUpdate data "exp" (.i (now + ttl)))) ∧
    (∀ k, k ≠ "exp" →
      claimsLookup (claimsUpdate data "exp" (.i (now + ttl))) k =
        claimsLookup data k) ∧
    (∀ now2 : Int, now + ttl < now2 →
      verify_token (create_access_token data (some ttl) now) now2 = none) ∧
    (∀ sig2 : String × Claims,
      sig2 ≠ (SECRET_KEY, claimsUpdate data "exp" (.i (now + ttl))) →
      ∀ now2 : Int,
        verify_token (.tok ⟨claimsUpdate data "exp" (.i (now + ttl)), sig2⟩)
          now2 = none) := by
  have hne : ttl ≠ 0 := by omega
  have hd : effectiveDelta (some ttl) = ttl := by simp [effectiveDelta, hne]
  have hlk := claimsLookup_update_self data "exp" (.i (now + ttl))
  refine ⟨?_, fun k hk => claimsLookup_update_other data _ _ hk, ?_, ?_⟩
  · intro now2 h2
    simp [verify_token, verify_tokenE, create_access_token, jwtEncode,
      jwtDecode, hd, hlk, not_lt.mpr h2]
  · intro now2 h2
    simp [verify_token, verify_tokenE, create_access_token, jwtEncode,
      jwtDecode, hd, hlk, h2]
  · intro sg hs now2
    simp [verify_token, verify_tokenE, jwtDecode, hs]

/-- C2 witness: claims `{sub: "1"}`, ttl 60, issued at 0 — verified at 10 the
claims come back with the expiry entry; at 100 the token is expired; with a
tampered signature it is rejected. -/
theorem claim2_roundtrip_amended_witness :
    verify_token (create_access_token [("sub", ClaimVal.s "1")] (some 60) 0) 10 =
      some (claimsUpdate [("sub", ClaimVal.s "1")] "exp" (.i (0 + 60))) ∧
    verify_token (create_access_token [("sub", ClaimVal.s "1")] (some 60) 0) 100 =
      none ∧
    verify_token (.tok ⟨claimsUpdate [("sub", ClaimVal.s "1")] "exp" (.i (0 + 60)),
      ("bad", [])⟩) 10 = none := by
  have T := claim2_roundtrip_amended [("sub", ClaimVal.s "1")] 60 0 (by decide)
  exact ⟨T.1 10 (by decide), T.2.2.1 100 (by decide),
    T.2.2.2 ("bad", []) (by decide) 10⟩

/-- C9: `create_access_token` copies the caller's dict before adding the
expiry entry, so the caller's dict cell is unchanged by the call — for every
heap, every valid reference, every ttl and every clock value. -/
theorem claim9_input_dict_unchanged (st : DictStore) (dataRef : Nat)
    (expires_delta : Option Int) (now : Int) (h : dataRef < st.length) :
    storeGet (create_access_token_heap st dataRef expires_delta now).1 dataRef =
      storeGet st dataRef := by
  simp only [create_access_token_heap, dictCopyAlloc, storeSet, storeGet]
  rw [List.getD_eq_getElem?_getD, List.getD_eq_getElem?_getD,
    List.getElem?_set_ne (Nat.ne_of_lt h).symm, List.getElem?_append_left h]

/-- C9 witness: a one-dict heap, reference 0. -/
theorem claim9_input_dict_unchanged_witness :
    storeGet (create_access_token_heap [[("sub", ClaimVal.s "1")]] 0
      (some 60) 0).1 0 = storeGet [[("sub", ClaimVal.s "1")]] 0 :=
  claim9_input_dict_unchanged [[("sub", ClaimVal.s "1")]] 0 (some 60) 0
    (by decide)

end OpenMinds
